import Mathlib

/-!
Verification of the subscription-lifecycle logic of the America-IPTV backend
(`src/server.js`).

The model works at calendar-day granularity: the source truncates every
timestamp to local midnight (`moment(...).startOf("day")`,
`setHours(0,0,0,0)`) before adding durations and comparing, and we assume a
fixed UTC offset (no DST transitions), so a date is a `(year, month, day)`
triple and differences of day ordinals model the source's millisecond
arithmetic at midnights.

Two distinct calendar-addition semantics occur in the source:
* `get-users` uses moment.js (`add(n, "months")`, `add(1, "year")`), which
  CLAMPS an out-of-range day-of-month to the last day of the target month
  (Jan 31 + 1 month = Feb 29 in 2024);
* `update-status` and `sendReminderEmails` use the JS `Date` mutators
  `setMonth` / `setFullYear`, which OVERFLOW an out-of-range day into the
  following month (Jan 31 + 1 month = Mar 2 in 2024).
Both are modelled below (`momentAddMonths` vs `jsAddMonths`).
-/

namespace IPTV

/-- Calendar date: `month` is 1-based (1 = January), `day` is 1-based. -/
structure Date where
  year : Nat
  month : Nat
  day : Nat
deriving Repr, DecidableEq

/-- Gregorian leap-year test, as both moment.js and JS `Date` implement it. -/
def isLeap (y : Nat) : Bool :=
  (y % 4 == 0 && y % 100 != 0) || y % 400 == 0

/-- Number of days in month `m` (1-based) of year `y`. -/
def daysInMonth (y m : Nat) : Nat :=
  if m == 2 then (if isLeap y then 29 else 28)
  else if m == 4 || m == 6 || m == 9 || m == 11 then 30
  else 31

/-- Target year and month after adding `n` months to month `m` (1-based) of
year `y`; shared by the moment.js and JS `Date` models, which normalise the
month index identically and differ only in day-of-month handling. -/
def monthShift (y m n : Nat) : Nat × Nat :=
  let total := (m - 1) + n
  (y + total / 12, total % 12 + 1)

/-- Model of moment.js `add(n, "months")`: the target month comes from
`monthShift` and an out-of-range day-of-month is clamped to the last day of
the target month. -/
def momentAddMonths (d : Date) (n : Nat) : Date :=
  let t := monthShift d.year d.month n
  ⟨t.1, t.2, min d.day (daysInMonth t.1 t.2)⟩

/-- Model of moment.js `add(1, "year")`: day-of-month clamped (Feb 29 + 1
year = Feb 28). -/
def momentAddYears1 (d : Date) : Date :=
  ⟨d.year + 1, d.month, min d.day (daysInMonth (d.year + 1) d.month)⟩

/-- Model of JS `Date.prototype.setMonth(getMonth() + n)`: the target month
comes from `monthShift` and an out-of-range day-of-month overflows into the
following month. The overflow step is single-step, which is exact for any
source day-of-month at most 31. -/
def jsAddMonths (d : Date) (n : Nat) : Date :=
  let t := monthShift d.year d.month n
  if d.day ≤ daysInMonth t.1 t.2 then ⟨t.1, t.2, d.day⟩
  else if t.2 == 12 then ⟨t.1 + 1, 1, d.day - daysInMonth t.1 t.2⟩
  else ⟨t.1, t.2 + 1, d.day - daysInMonth t.1 t.2⟩

/-- Model of JS `Date.prototype.setFullYear(getFullYear() + 1)`: Feb 29
overflows to Mar 1 of a non-leap target year. -/
def jsAddYears1 (d : Date) : Date :=
  if d.day ≤ daysInMonth (d.year + 1) d.month then ⟨d.year + 1, d.month, d.day⟩
  else if d.month == 12 then ⟨d.year + 2, 1, d.day - daysInMonth (d.year + 1) d.month⟩
  else ⟨d.year + 1, d.month + 1, d.day - daysInMonth (d.year + 1) d.month⟩

/-- Successor day on the calendar. -/
def nextDay (d : Date) : Date :=
  if d.day < daysInMonth d.year d.month then ⟨d.year, d.month, d.day + 1⟩
  else if d.month < 12 then ⟨d.year, d.month + 1, 1⟩
  else ⟨d.year + 1, 1, 1⟩

/-- Model of moment.js `add(n, "days")`. -/
def addDays (d : Date) (n : Nat) : Date :=
  match n with
  | 0 => d
  | k + 1 => addDays (nextDay d) k

/-- Days elapsed in year `y` before the start of month `m` (1-based). -/
def daysBeforeMonth (y m : Nat) : Nat :=
  (List.range (m - 1)).foldl (fun acc i => acc + daysInMonth y (i + 1)) 0

/-- Day ordinal (proleptic Gregorian, day 1 = 0001-01-01); differences of
ordinals model the source's `(a.getTime() - b.getTime()) / 86400000` for
midnight values under a fixed UTC offset, and `moment.isBefore` on
start-of-day moments. -/
def toOrd (d : Date) : Nat :=
  365 * (d.year - 1) + (d.year - 1) / 4 + (d.year - 1) / 400
    - (d.year - 1) / 100 + daysBeforeMonth d.year d.month + d.day

/-- Model of moment.js `a.isBefore(b)` on start-of-day values. -/
def isBefore (a b : Date) : Bool :=
  toOrd a < toOrd b

/-- Character-list matcher: does `pat` occur at the head of `s`? -/
def subMatch : List Char → List Char → Bool
  | _, [] => true
  | [], _ :: _ => false
  | c :: cs, p :: ps => p == c && subMatch cs ps

/-- Model of JS `String.prototype.includes`: `containsSub s pat` is true iff
`pat` occurs as a contiguous substring of `s`. -/
def containsSub (s pat : String) : Bool :=
  (List.range (s.data.length + 1)).any (fun i => subMatch (s.data.drop i) pat.data)

/-- Due date computed by the `get-users` handler (server.js lines 264-281):
for `invoice_status === "paid"`, substring-match the plan against
`"Monthly"`, `"6-Month"`, `"Yearly"` in that order and add the duration with
moment.js; then, for `invoice_status === "Free"` with plan exactly
`"Free Trial"`, the due date is 7 days after the day-truncated timestamp.
`updatedAt` is the already day-truncated `updated_at` value
(`moment(user.updated_at).startOf("day")`). -/
def computeDueDate (status plan : String) (updatedAt : Date) : Option Date :=
  let paidDue : Option Date :=
    if status == "paid" then
      if containsSub plan "Monthly" then some (momentAddMonths updatedAt 1)
      else if containsSub plan "6-Month" then some (momentAddMonths updatedAt 6)
      else if containsSub plan "Yearly" then some (momentAddYears1 updatedAt)
      else none
    else none
  if status == "Free" && plan == "Free Trial" then some (addDays updatedAt 7)
  else paidDue

/-- Lapse check of the `get-users` handler (server.js line 284):
`dueDate && dueDate.isBefore(currentDate)`. -/
def hasLapsed (status plan : String) (updatedAt today : Date) : Bool :=
  match computeDueDate status plan updatedAt with
  | some dd => isBefore dd today
  | none => false

/-- Plan duration of the `update-status` handler (server.js lines 349-354,
`getPlanDuration`): `(months, years)` pair, `none` for an unknown plan. -/
def getPlanDuration (plan : String) : Option (Nat × Nat) :=
  if containsSub plan "Monthly" then some (1, 0)
  else if containsSub plan "6-Month" then some (6, 0)
  else if containsSub plan "Yearly" then some (0, 1)
  else none

/-- End date computed by the `update-status` handler (server.js lines
346-363): starts from `now`, and only for `status === "paid"` with a
recognised plan adds the duration with JS `Date` mutators (`setMonth` if the
`months` field is non-zero, then `setFullYear` if `years` is non-zero).
`now` is the day-truncated current time (the email renders it with
`toDateString()`, and calendar month/year addition commutes with
start-of-day truncation). -/
def updateStatusEndDate (status plan : String) (now : Date) : Date :=
  if status == "paid" then
    match getPlanDuration plan with
    | some dur =>
        let e := if dur.1 ≠ 0 then jsAddMonths now dur.1 else now
        if dur.2 ≠ 0 then jsAddYears1 e else e
    | none => now
  else now

/-- End date computed by the reminder sweep `sendReminderEmails` (server.js
lines 770-782): starts from the day-truncated `updated_at` and
substring-matches the plan in the same precedence, adding with JS `Date`
mutators; an unmatched plan leaves the end date equal to the start date. -/
def sweepEndDate (plan : String) (startDate : Date) : Date :=
  if containsSub plan "Monthly" then jsAddMonths startDate 1
  else if containsSub plan "6-Month" then jsAddMonths startDate 6
  else if containsSub plan "Yearly" then jsAddYears1 startDate
  else startDate

/-- Reminder trigger of the sweep (server.js lines 785-788): the day
difference between the end date and day-truncated today equals exactly 2. -/
def isReminderDue (plan : String) (updatedAt today : Date) : Bool :=
  ((toOrd (sweepEndDate plan updatedAt) : Int) - (toOrd today : Int)) == 2

/-- Row of the `users` table as the subscription-lifecycle code reads it
(`SELECT id, name, plan, invoice_status, phone, updated_at`, plus the
`email`, `price` and `invoice` columns written at signup). `updated_at` is
kept at day granularity, matching the truncation every reader applies. -/
structure User where
  id : Nat
  name : String
  email : String
  phone : String
  plan : String
  price : String
  invoice : String
  invoice_status : String
  updated_at : Date
deriving Repr, DecidableEq

/-- Ids collected by the `get-users` handler (server.js lines 261-287): one
push per row whose due date is defined and before today. -/
def lapsedIds (store : List User) (today : Date) : List Nat :=
  (store.filter
    (fun u => hasLapsed u.invoice_status u.plan u.updated_at today)).map User.id

/-- Bulk demotion of the `get-users` handler (server.js line 290):
`UPDATE users SET invoice_status = 'pending' WHERE id IN (?)`; only the
status column is written. -/
def demote (store : List User) (ids : List Nat) : List User :=
  store.map (fun u =>
    if ids.contains u.id then { u with invoice_status := "pending" } else u)

/-- Rows returned by the `get-users` handler (server.js lines 289-304): if
any row lapsed, the bulk demotion runs and the table is re-read, so the
response is the demoted store; otherwise the original rows are returned. -/
def getUsersResponse (store : List User) (today : Date) : List User :=
  let ids := lapsedIds store today
  if ids.isEmpty then store else demote store ids

/-- Modelled from the spec: the `users` table schema is not in the
repository source, and the `update-status` handler's SQL (server.js lines
331-332) names only the `invoice_status` column; per the spec the operator
update also sets the last-status-change timestamp to now ("set
invoiceStatus = <value>, statusChangedAt = now for one id"). The handler
targets the single row `WHERE id = ?`. -/
def applyStatusUpdate (u : User) (id : Nat) (status : String) (now : Date) : User :=
  if u.id == id then { u with invoice_status := status, updated_at := now } else u

/-- Store-level view of the operator status update: every row with the
target id is rewritten, all other rows are untouched. -/
def updateStatusStore (store : List User) (id : Nat) (status : String)
    (now : Date) : List User :=
  store.map (fun u => applyStatusUpdate u id status now)

/-- Email composed by the `update-status` handler (server.js lines 374-383):
`subject` and `html` are declared with `let` and assigned only when
`status === "paid"`, so for any other status both stay `undefined` (`none`
here) yet are still passed to `sendMail`. -/
def composeStatusEmail (status : String) (name : String) (startD endD : Date) :
    Option String × Option String :=
  if status == "paid" then
    (some "Your Payment is Confirmed!",
     some (s!"Hi {name}, your subscription is now active and valid from " ++
           s!"{startD.year}-{startD.month}-{startD.day} to " ++
           s!"{endD.year}-{endD.month}-{endD.day}."))
  else (none, none)

/-- Observable outcome of the `update-status` handler's email-and-respond
tail (server.js lines 365-397): `sendMail` is invoked unconditionally with
the composed (possibly undefined) subject and body, its failure is caught,
and the handler then answers 200 with a fixed message in every case. -/
structure StatusUpdateOutcome where
  emailTo : String
  subject : Option String
  body : Option String
  message : String
deriving Repr, DecidableEq

/-- Outcome of the `update-status` handler for an existing user `u` and a
supplied `status`, with `now` the day-truncated current time. -/
def updateStatusOutcome (u : User) (status : String) (now : Date) :
    StatusUpdateOutcome :=
  let endD := updateStatusEndDate status u.plan now
  let se := composeStatusEmail status u.name now endD
  ⟨u.email, se.1, se.2, "Status updated and email sent"⟩

/-- Outcome of one send attempt under the per-row try/catch of the sweep
(server.js lines 807-817): a throwing send is caught and recorded as a
failure instead of aborting the loop. -/
def caughtOk (r : Except String Unit) : Bool :=
  match r with
  | .ok _ => true
  | .error _ => false

/-- Per-row loop of the reminder sweep over the already-fetched rows
(server.js lines 768-819): for each row whose reminder is due a send is
attempted; `send` models the mail transport, and the returned list records,
in order, the id of every subscriber for whom a send was attempted together
with whether it succeeded. -/
def sweepAttemptsAux (today : Date) (send : User → Except String Unit) :
    List User → List (Nat × Bool)
  | [] => []
  | u :: rest =>
      if isReminderDue u.plan u.updated_at today then
        (u.id, caughtOk (send u)) :: sweepAttemptsAux today send rest
      else sweepAttemptsAux today send rest

/-- Send attempts performed by one run of `sendReminderEmails` (server.js
lines 745-819): rows are fetched with `WHERE invoice_status = 'paid'` and
the per-row loop runs over them in order. -/
def sweepAttempts (store : List User) (today : Date)
    (send : User → Except String Unit) : List (Nat × Bool) :=
  sweepAttemptsAux today send (store.filter (fun u => u.invoice_status == "paid"))

/-- Mail transport that fails on every send, for exercising the sweep. -/
def sendAlwaysFail : User → Except String Unit :=
  fun _ => Except.error "send failure"

/-- Mail transport that succeeds on every send. -/
def sendAlwaysOk : User → Except String Unit :=
  fun _ => Except.ok ()

/-- Concrete paid subscriber on a monthly plan, for exercising the sweep. -/
def uPaidMonthly : User :=
  ⟨1, "Alice", "alice@example.com", "5551234", "Monthly", "$10", "INV-1",
   "paid", ⟨2024, 5, 1⟩⟩

/-- Concrete pending subscriber, for exercising the status update. -/
def uPending : User :=
  ⟨2, "Bob", "bob@example.com", "5555678", "Yearly", "$90", "INV-2",
   "pending", ⟨2024, 5, 1⟩⟩

example : momentAddMonths ⟨2024, 1, 31⟩ 1 = ⟨2024, 2, 29⟩ := by decide
example : jsAddMonths ⟨2024, 1, 31⟩ 1 = ⟨2024, 3, 2⟩ := by decide
example : containsSub "Monthly Plan" "Monthly" = true := by decide
example : containsSub "Basic" "Monthly" = false := by decide
example : computeDueDate "Free" "Free Trial" ⟨2024, 5, 1⟩ = some ⟨2024, 5, 8⟩ := by decide

/-- Every month of every year has at least 28 days. -/
theorem daysInMonth_ge (y m : Nat) : 28 ≤ daysInMonth y m := by
  unfold daysInMonth
  split_ifs <;> omega

/-- When the source day-of-month is at most 28, no month-end rollover can
occur and the moment.js (clamping) and JS `Date` (overflowing) month
additions agree. -/
theorem momentAddMonths_eq_jsAddMonths (d : Date) (n : Nat) (hd : d.day ≤ 28) :
    momentAddMonths d n = jsAddMonths d n := by
  unfold momentAddMonths jsAddMonths
  have hle : d.day ≤ daysInMonth (monthShift d.year d.month n).1
      (monthShift d.year d.month n).2 :=
    le_trans hd (daysInMonth_ge _ _)
  simp [hle, Nat.min_eq_left hle]

/-- When the source day-of-month is at most 28, the moment.js and JS `Date`
year additions agree. -/
theorem momentAddYears1_eq_jsAddYears1 (d : Date) (hd : d.day ≤ 28) :
    momentAddYears1 d = jsAddYears1 d := by
  unfold momentAddYears1 jsAddYears1
  have hle : d.day ≤ daysInMonth (d.year + 1) d.month :=
    le_trans hd (daysInMonth_ge _ _)
  simp [hle, Nat.min_eq_left hle]

/-- A status other than `"paid"` and `"Free"` never yields a due date. -/
theorem computeDueDate_none_of_status (status plan : String) (d : Date)
    (h1 : status ≠ "paid") (h2 : status ≠ "Free") :
    computeDueDate status plan d = none := by
  unfold computeDueDate
  have b1 : (status == "paid") = false := beq_eq_false_iff_ne.mpr h1
  have b2 : (status == "Free") = false := beq_eq_false_iff_ne.mpr h2
  simp [b1, b2]

/-- C2: for every subscriber and every today, `hasLapsed` is true iff the
computed due date is defined and strictly before the day-truncated today;
and in the concrete boundary scenario (invoiceStatus `"Free"`, plan
`"Free Trial"`, statusChangedAt 2024-05-01, today 2024-05-08) the due date
is 2024-05-08 and `hasLapsed` is false. -/
theorem hasLapsed_iff_dueDate_before_today :
    (∀ status plan : String, ∀ d today : Date,
      hasLapsed status plan d today = true ↔
        ∃ dd, computeDueDate status plan d = some dd ∧ toOrd dd < toOrd today) ∧
    computeDueDate "Free" "Free Trial" ⟨2024, 5, 1⟩ = some ⟨2024, 5, 8⟩ ∧
    hasLapsed "Free" "Free Trial" ⟨2024, 5, 1⟩ ⟨2024, 5, 8⟩ = false := by
  refine ⟨fun status plan d today => ?_, by decide, by decide⟩
  unfold hasLapsed
  cases h : computeDueDate status plan d with
  | none => simp
  | some dd => simp [isBefore]

/-- C4: for every statusChangedAt, the `"Free"` status pairs only with the
plan exactly `"Free Trial"`, giving a due date 7 days later; any other plan
(for example `"Monthly"`) yields no due date. -/
theorem computeDueDate_free_trial (d : Date) :
    computeDueDate "Free" "Free Trial" d = some (addDays d 7) ∧
    ∀ p : String, p ≠ "Free Trial" → computeDueDate "Free" p d = none := by
  constructor
  · rfl
  · intro p hp
    unfold computeDueDate
    have b : (p == "Free Trial") = false := beq_eq_false_iff_ne.mpr hp
    simp [b]

/-- Witness for `computeDueDate_free_trial` at statusChangedAt 2024-05-01
and the other plan `"Monthly"`. -/
theorem computeDueDate_free_trial_witness :
    computeDueDate "Free" "Free Trial" ⟨2024, 5, 1⟩ =
      some (addDays ⟨2024, 5, 1⟩ 7) ∧
    computeDueDate "Free" "Monthly" ⟨2024, 5, 1⟩ = none :=
  ⟨(computeDueDate_free_trial ⟨2024, 5, 1⟩).1,
   (computeDueDate_free_trial ⟨2024, 5, 1⟩).2 "Monthly" (by decide)⟩

/-- C1 counterexample: the three call sites do not compute the due date
identically. For a paid subscriber on a `"Monthly"` plan with day-truncated
statusChangedAt 2024-01-31, the `get-users` handler (moment.js) clamps to
2024-02-29, while the reminder sweep and the `update-status` handler (JS
`Date.setMonth`) overflow to 2024-03-02. -/
theorem dueDate_not_identical_across_sites :
    computeDueDate "paid" "Monthly" ⟨2024, 1, 31⟩ = some ⟨2024, 2, 29⟩ ∧
    sweepEndDate "Monthly" ⟨2024, 1, 31⟩ = ⟨2024, 3, 2⟩ ∧
    updateStatusEndDate "paid" "Monthly" ⟨2024, 1, 31⟩ = ⟨2024, 3, 2⟩ ∧
    (⟨2024, 2, 29⟩ : Date) ≠ ⟨2024, 3, 2⟩ := by
  refine ⟨by decide, by decide, by decide, by decide⟩

/-- C1 amended: all three call sites select the duration by the same
substring matching in the same precedence (Monthly, then 6-Month, then
Yearly) on the day-truncated statusChangedAt, and for a paid subscriber the
`update-status` handler and the reminder sweep always agree; the `get-users`
listing agrees with them whenever no month-end rollover occurs (in
particular whenever the day-of-month is at most 28), but clamps to the last
day of the target month where they overflow into the following month.
Plans matching no keyword have an undefined due date at the listing site. -/
theorem dueDate_sites_agree_no_rollover (plan : String) (d e : Date)
    (hd : d.day ≤ 28) (h : computeDueDate "paid" plan d = some e) :
    sweepEndDate plan d = e ∧ updateStatusEndDate "paid" plan d = e := by
  have hb : (("paid" : String) == "Free") = false := by decide
  have hp : (("paid" : String) == "paid") = true := by decide
  unfold computeDueDate at h
  simp [hb, hp] at h
  unfold sweepEndDate updateStatusEndDate getPlanDuration
  simp [hp]
  by_cases h1 : containsSub plan "Monthly" = true
  · have hm := momentAddMonths_eq_jsAddMonths d 1 hd
    simp [h1] at h ⊢
    rw [← h, hm]
  · by_cases h2 : containsSub plan "6-Month" = true
    · have hm := momentAddMonths_eq_jsAddMonths d 6 hd
      simp [h1, h2] at h ⊢
      rw [← h, hm]
    · by_cases h3 : containsSub plan "Yearly" = true
      · have hm := momentAddYears1_eq_jsAddYears1 d hd
        simp [h1, h2, h3] at h ⊢
        rw [← h, hm]
      · simp [h1, h2, h3] at h

/-- Witness for `dueDate_sites_agree_no_rollover` at plan `"Monthly Plan"`
and statusChangedAt 2024-01-15. -/
theorem dueDate_sites_agree_no_rollover_witness :
    sweepEndDate "Monthly Plan" ⟨2024, 1, 15⟩ = ⟨2024, 2, 15⟩ ∧
    updateStatusEndDate "paid" "Monthly Plan" ⟨2024, 1, 15⟩ = ⟨2024, 2, 15⟩ :=
  dueDate_sites_agree_no_rollover "Monthly Plan" ⟨2024, 1, 15⟩ ⟨2024, 2, 15⟩
    (by decide) (by decide)

/-- C3 counterexample: a paid subscriber whose plan matches none of the
three keywords has an undefined due date at the listing computation, yet the
sweep still sends a reminder when the day-truncated statusChangedAt lies
exactly 2 days in the future, because the unmatched branch of the sweep
leaves the end date equal to the start date instead of undefined. -/
theorem reminder_sent_for_unknown_plan :
    computeDueDate "paid" "Basic" ⟨2024, 5, 10⟩ = none ∧
    containsSub "Basic" "Monthly" = false ∧
    containsSub "Basic" "6-Month" = false ∧
    containsSub "Basic" "Yearly" = false ∧
    isReminderDue "Basic" ⟨2024, 5, 10⟩ ⟨2024, 5, 8⟩ = true ∧
    sweepAttempts
        [⟨3, "Carl", "carl@example.com", "5550", "Basic", "$5", "INV-3",
          "paid", ⟨2024, 5, 10⟩⟩] ⟨2024, 5, 8⟩ sendAlwaysOk
      = [(3, true)] := by
  refine ⟨by decide, by decide, by decide, by decide, by decide, by decide⟩

/-- C3 amended: a reminder is due exactly when the sweep's end date minus
the day-truncated today equals exactly 2 days (so due dates 1 or 3 days out
are skipped); for a plan matching none of the three keywords the end date
degenerates to the day-truncated statusChangedAt itself, so such a
subscriber is sent a reminder only in the anomalous case that the
statusChangedAt lies exactly 2 days in the future, and never when the
statusChangedAt is not after today. -/
theorem isReminderDue_exact_two_days (plan : String) (d today : Date) :
    (isReminderDue plan d today = true ↔
      (toOrd (sweepEndDate plan d) : Int) - (toOrd today : Int) = 2) ∧
    ((containsSub plan "Monthly" || containsSub plan "6-Month" ||
        containsSub plan "Yearly") = false → sweepEndDate plan d = d) ∧
    ((containsSub plan "Monthly" || containsSub plan "6-Month" ||
        containsSub plan "Yearly") = false → toOrd d ≤ toOrd today →
      isReminderDue plan d today = false) := by
  have hend : (containsSub plan "Monthly" || containsSub plan "6-Month" ||
      containsSub plan "Yearly") = false → sweepEndDate plan d = d := by
    intro hf
    rw [Bool.or_eq_false_iff, Bool.or_eq_false_iff] at hf
    unfold sweepEndDate
    simp [hf.1.1, hf.1.2, hf.2]
  refine ⟨?_, hend, ?_⟩
  · unfold isReminderDue
    simp
  · intro hf hle
    unfold isReminderDue
    rw [hend hf]
    simp
    omega

/-- Witness for `isReminderDue_exact_two_days` at the unmatched plan
`"Basic"` with statusChangedAt 2024-05-01 and today 2024-05-08. -/
theorem isReminderDue_exact_two_days_witness :
    sweepEndDate "Basic" ⟨2024, 5, 1⟩ = ⟨2024, 5, 1⟩ ∧
    isReminderDue "Basic" ⟨2024, 5, 1⟩ ⟨2024, 5, 8⟩ = false :=
  ⟨(isReminderDue_exact_two_days "Basic" ⟨2024, 5, 1⟩ ⟨2024, 5, 8⟩).2.1
      (by decide),
   (isReminderDue_exact_two_days "Basic" ⟨2024, 5, 1⟩ ⟨2024, 5, 8⟩).2.2
      (by decide) (by decide)⟩

example : isReminderDue "Monthly" ⟨2024, 5, 1⟩ ⟨2024, 5, 30⟩ = true := by decide
example : isReminderDue "Monthly" ⟨2024, 5, 1⟩ ⟨2024, 5, 31⟩ = false := by decide
example : isReminderDue "Monthly" ⟨2024, 5, 1⟩ ⟨2024, 5, 29⟩ = false := by decide
example : isReminderDue "6-Month Plan" ⟨2024, 1, 1⟩ ⟨2024, 6, 29⟩ = true := by decide

/-- C8: `hasLapsed` is monotonic in today: once true at day `T`, it stays
true at every later day. -/
theorem hasLapsed_monotone (status plan : String) (d T T2 : Date)
    (h : hasLapsed status plan d T = true) (hlt : toOrd T < toOrd T2) :
    hasLapsed status plan d T2 = true := by
  unfold hasLapsed at h ⊢
  split at h
  next dd hc =>
    simp [isBefore] at h ⊢
    omega
  next hc => simp at h

/-- Witness for `hasLapsed_monotone`: a monthly subscriber lapsed on
2024-03-01 is still lapsed on 2024-04-01. -/
theorem hasLapsed_monotone_witness :
    hasLapsed "paid" "Monthly" ⟨2024, 1, 1⟩ ⟨2024, 4, 1⟩ = true :=
  hasLapsed_monotone "paid" "Monthly" ⟨2024, 1, 1⟩ ⟨2024, 3, 1⟩ ⟨2024, 4, 1⟩
    (by decide) (by decide)

/-- A status other than `"paid"` and `"Free"` can never be lapsed. -/
theorem hasLapsed_false_of_status (status plan : String) (d t : Date)
    (h1 : status ≠ "paid") (h2 : status ≠ "Free") :
    hasLapsed status plan d t = false := by
  unfold hasLapsed
  rw [computeDueDate_none_of_status status plan d h1 h2]

/-- A lapsed row of the store has its id collected by the lapse scan. -/
theorem mem_lapsedIds (store : List User) (today : Date) (u : User)
    (hu : u ∈ store)
    (hl : hasLapsed u.invoice_status u.plan u.updated_at today = true) :
    u.id ∈ lapsedIds store today := by
  unfold lapsedIds
  exact List.mem_map_of_mem _ (List.mem_filter.mpr ⟨hu, hl⟩)

/-- No row of the listing response is still lapsed: either it was not lapsed
in the store, or its id was collected and the demotion set its status to
`"pending"`, which has no due date. -/
theorem hasLapsed_false_of_response (store : List User) (today : Date)
    (u : User) (hu : u ∈ getUsersResponse store today) :
    hasLapsed u.invoice_status u.plan u.updated_at today = false := by
  unfold getUsersResponse at hu
  by_cases hemp : (lapsedIds store today).isEmpty = true
  · rw [if_pos hemp] at hu
    cases hl : hasLapsed u.invoice_status u.plan u.updated_at today
    · rfl
    · exfalso
      have hmem := mem_lapsedIds store today u hu hl
      have : lapsedIds store today = [] := by simpa using hemp
      rw [this] at hmem
      simp at hmem
  · rw [if_neg hemp] at hu
    unfold demote at hu
    rcases List.mem_map.mp hu with ⟨v, hv, hfv⟩
    by_cases hc : (lapsedIds store today).contains v.id = true
    · rw [if_pos hc] at hfv
      rw [← hfv]
      apply hasLapsed_false_of_status
      · show ("pending" : String) ≠ "paid"
        decide
      · show ("pending" : String) ≠ "Free"
        decide
    · rw [if_neg hc] at hfv
      rw [← hfv]
      cases hl : hasLapsed v.invoice_status v.plan v.updated_at today
      · rfl
      · exfalso
        have hmem := mem_lapsedIds store today v hv hl
        exact hc (by simpa using hmem)

/-- C6: the listing response reflects post-lapse state: no returned row
simultaneously has a defined due date strictly before today and a
still-`"paid"` or still-`"Free"` invoice status. -/
theorem getUsers_response_no_stale_lapsed (store : List User) (today : Date) :
    (getUsersResponse store today).all
      (fun u => !(hasLapsed u.invoice_status u.plan u.updated_at today &&
        (u.invoice_status == "paid" || u.invoice_status == "Free"))) = true := by
  rw [List.all_eq_true]
  intro u hu
  rw [hasLapsed_false_of_response store today u hu]
  rfl

/-- C7: a subscriber whose invoice status is `"pending"` (or anything other
than `"paid"` and `"Free"`) has no due date regardless of plan and
statusChangedAt, is never lapsed at any today, and passes through the
listing operation unchanged (its id is never collected for demotion; store
ids are assumed unique, as for a primary-key column). -/
theorem pending_never_lapses (store : List User) (today : Date) (u : User)
    (hnodup : (store.map User.id).Nodup) (hu : u ∈ store)
    (h1 : u.invoice_status ≠ "paid") (h2 : u.invoice_status ≠ "Free") :
    computeDueDate u.invoice_status u.plan u.updated_at = none ∧
    (∀ t : Date, hasLapsed u.invoice_status u.plan u.updated_at t = false) ∧
    u ∈ getUsersResponse store today := by
  refine ⟨computeDueDate_none_of_status _ _ _ h1 h2,
    fun t => hasLapsed_false_of_status _ _ _ _ h1 h2, ?_⟩
  have hnotmem : u.id ∉ lapsedIds store today := by
    intro hmem
    unfold lapsedIds at hmem
    rcases List.mem_map.mp hmem with ⟨v, hvf, hvid⟩
    have hv := List.mem_filter.mp hvf
    have hvu : v = u := List.inj_on_of_nodup_map hnodup hv.1 hu hvid
    rw [hvu] at hv
    rw [hasLapsed_false_of_status _ _ _ _ h1 h2] at hv
    simp at hv
  unfold getUsersResponse
  by_cases hemp : (lapsedIds store today).isEmpty = true
  · rw [if_pos hemp]
    exact hu
  · rw [if_neg hemp]
    unfold demote
    have huu : (fun w : User =>
        if (lapsedIds store today).contains w.id = true then
          { w with invoice_status := "pending" } else w) u = u := by
      simp [hnotmem]
    rw [← huu]
    exact List.mem_map_of_mem _ hu

/-- Witness for `pending_never_lapses`: a pending yearly subscriber in a
one-row store on 2024-06-01. -/
theorem pending_never_lapses_witness :
    computeDueDate "pending" "Yearly" ⟨2024, 1, 1⟩ = none ∧
    hasLapsed "pending" "Yearly" ⟨2024, 1, 1⟩ ⟨2024, 6, 1⟩ = false ∧
    (⟨7, "Pat", "p@x.com", "555", "Yearly", "$90", "INV-7", "pending",
        ⟨2024, 1, 1⟩⟩ : User) ∈
      getUsersResponse
        [⟨7, "Pat", "p@x.com", "555", "Yearly", "$90", "INV-7", "pending",
          ⟨2024, 1, 1⟩⟩] ⟨2024, 6, 1⟩ := by
  have h := pending_never_lapses
    [⟨7, "Pat", "p@x.com", "555", "Yearly", "$90", "INV-7", "pending",
      ⟨2024, 1, 1⟩⟩] ⟨2024, 6, 1⟩
    ⟨7, "Pat", "p@x.com", "555", "Yearly", "$90", "INV-7", "pending",
      ⟨2024, 1, 1⟩⟩
    (by decide) (by decide) (by decide) (by decide)
  exact ⟨h.1, h.2.1 ⟨2024, 6, 1⟩, h.2.2⟩

/-- C5: the operator status update writes the new invoice status and the
status-change timestamp to the record with the target id, leaves every other
field of that record unchanged, leaves records with any other id entirely
unchanged, and the rewritten record is what the store holds afterwards. -/
theorem updateStatus_frame (store : List User) (u : User) (id : Nat)
    (status : String) (now : Date) (hu : u ∈ store) :
    applyStatusUpdate u id status now ∈ updateStatusStore store id status now ∧
    (applyStatusUpdate u id status now).id = u.id ∧
    (applyStatusUpdate u id status now).name = u.name ∧
    (applyStatusUpdate u id status now).email = u.email ∧
    (applyStatusUpdate u id status now).phone = u.phone ∧
    (applyStatusUpdate u id status now).plan = u.plan ∧
    (applyStatusUpdate u id status now).price = u.price ∧
    (applyStatusUpdate u id status now).invoice = u.invoice ∧
    (u.id = id →
      (applyStatusUpdate u id status now).invoice_status = status ∧
      (applyStatusUpdate u id status now).updated_at = now) ∧
    (u.id ≠ id → applyStatusUpdate u id status now = u) := by
  constructor
  · unfold updateStatusStore
    exact List.mem_map_of_mem _ hu
  · unfold applyStatusUpdate
    by_cases hid : u.id = id
    · simp [hid]
    · have hb : (u.id == id) = false := beq_eq_false_iff_ne.mpr hid
      simp [hb, hid]

/-- Witness for `updateStatus_frame`: marking the pending subscriber paid on
2024-06-01 sets exactly the status and timestamp and keeps the plan. -/
theorem updateStatus_frame_witness :
    (applyStatusUpdate uPending 2 "paid" ⟨2024, 6, 1⟩).invoice_status
      = "paid" ∧
    (applyStatusUpdate uPending 2 "paid" ⟨2024, 6, 1⟩).updated_at
      = ⟨2024, 6, 1⟩ ∧
    (applyStatusUpdate uPending 2 "paid" ⟨2024, 6, 1⟩).plan = uPending.plan ∧
    applyStatusUpdate uPending 2 "paid" ⟨2024, 6, 1⟩ ∈
      updateStatusStore [uPending] 2 "paid" ⟨2024, 6, 1⟩ := by
  have h := updateStatus_frame [uPending] uPending 2 "paid" ⟨2024, 6, 1⟩
    (by simp)
  have hpos := h.2.2.2.2.2.2.2.2.1 (by decide)
  exact ⟨hpos.1, hpos.2, h.2.2.2.2.2.1, h.1⟩

/-- The attempted-id sequence of the sweep loop does not depend on the
outcomes of the individual sends. -/
theorem sweepAttemptsAux_fst_eq (today : Date)
    (send1 send2 : User → Except String Unit) (l : List User) :
    (sweepAttemptsAux today send1 l).map Prod.fst
      = (sweepAttemptsAux today send2 l).map Prod.fst := by
  induction l with
  | nil => rfl
  | cons u rest ih =>
      unfold sweepAttemptsAux
      by_cases hdue : isReminderDue u.plan u.updated_at today = true
      · rw [if_pos hdue, if_pos hdue]
        simp [ih]
      · rw [if_neg hdue, if_neg hdue]
        exact ih

/-- Every row of the loop whose reminder is due gets a send attempt. -/
theorem sweepAttemptsAux_mem (today : Date) (send : User → Except String Unit)
    (u : User) (l : List User) (hmem : u ∈ l)
    (hdue : isReminderDue u.plan u.updated_at today = true) :
    (u.id, caughtOk (send u)) ∈ sweepAttemptsAux today send l := by
  induction l with
  | nil => simp at hmem
  | cons v rest ih =>
      unfold sweepAttemptsAux
      rcases List.mem_cons.mp hmem with heq | htail
      · subst heq
        rw [if_pos hdue]
        exact List.mem_cons_self _ _
      · by_cases hv : isReminderDue v.plan v.updated_at today = true
        · rw [if_pos hv]
          exact List.mem_cons_of_mem _ (ih htail)
        · rw [if_neg hv]
          exact ih htail

/-- C9: a failed send for one subscriber does not prevent the per-subscriber
evaluation and send attempt for the rest: the attempted-id sequence of a
sweep run is the same under a failing transport as under any other
transport, and every paid subscriber whose reminder is due receives a send
attempt whatever the transport does. -/
theorem sweep_attempts_independent_of_failures (store : List User)
    (today : Date) (send1 send2 : User → Except String Unit) (u : User)
    (hu : u ∈ store) (hp : u.invoice_status = "paid")
    (hdue : isReminderDue u.plan u.updated_at today = true) :
    (sweepAttempts store today send1).map Prod.fst
      = (sweepAttempts store today send2).map Prod.fst ∧
    (u.id, caughtOk (send1 u)) ∈ sweepAttempts store today send1 := by
  refine ⟨sweepAttemptsAux_fst_eq today send1 send2 _, ?_⟩
  unfold sweepAttempts
  exact sweepAttemptsAux_mem today send1 u _
    (List.mem_filter.mpr ⟨hu, by simp [hp]⟩) hdue

/-- Witness for `sweep_attempts_independent_of_failures`: one paid monthly
subscriber due on 2024-06-01, evaluated on 2024-05-30, with a transport that
fails every send; the attempt still happens and is recorded as failed. -/
theorem sweep_attempts_independent_of_failures_witness :
    (sweepAttempts [uPaidMonthly] ⟨2024, 5, 30⟩ sendAlwaysFail).map Prod.fst
      = (sweepAttempts [uPaidMonthly] ⟨2024, 5, 30⟩ sendAlwaysOk).map
          Prod.fst ∧
    (uPaidMonthly.id, caughtOk (sendAlwaysFail uPaidMonthly)) ∈
      sweepAttempts [uPaidMonthly] ⟨2024, 5, 30⟩ sendAlwaysFail :=
  sweep_attempts_independent_of_failures [uPaidMonthly] ⟨2024, 5, 30⟩
    sendAlwaysFail sendAlwaysOk uPaidMonthly (by simp) (by decide) (by decide)

/-- C10: for every status other than `"paid"` supplied to the status
update, the handler still attempts an email to the subscriber, with
undefined subject and undefined body, and responds with exactly the same
success message as the `"paid"` case. -/
theorem updateStatus_nonpaid_email (u : User) (status : String) (now : Date)
    (h : status ≠ "paid") :
    (updateStatusOutcome u status now).emailTo = u.email ∧
    (updateStatusOutcome u status now).subject = none ∧
    (updateStatusOutcome u status now).body = none ∧
    (updateStatusOutcome u status now).message
      = "Status updated and email sent" ∧
    (updateStatusOutcome u status now).message
      = (updateStatusOutcome u "paid" now).message := by
  have hb : (status == "paid") = false := beq_eq_false_iff_ne.mpr h
  unfold updateStatusOutcome composeStatusEmail
  simp [hb]

/-- Witness for `updateStatus_nonpaid_email` at the status `"rejected"`. -/
theorem updateStatus_nonpaid_email_witness :
    (updateStatusOutcome uPending "rejected" ⟨2024, 6, 1⟩).emailTo
      = uPending.email ∧
    (updateStatusOutcome uPending "rejected" ⟨2024, 6, 1⟩).subject = none ∧
    (updateStatusOutcome uPending "rejected" ⟨2024, 6, 1⟩).body = none ∧
    (updateStatusOutcome uPending "rejected" ⟨2024, 6, 1⟩).message
      = "Status updated and email sent" ∧
    (updateStatusOutcome uPending "rejected" ⟨2024, 6, 1⟩).message
      = (updateStatusOutcome uPending "paid" ⟨2024, 6, 1⟩).message :=
  updateStatus_nonpaid_email uPending "rejected" ⟨2024, 6, 1⟩ (by decide)

end IPTV
